import Mathlib

/-
Shallow embedding of src/debt_tracker.py (a Telegram debt-tracking bot).

Modelling conventions:
  - SQLite tables become Lean lists of rows; each CRUD helper of the source
    becomes a pure function on a DB record.  AUTOINCREMENT ids are modelled
    by explicit next-id counters starting at 1, matching SQLite rowids.
  - The source opens a fresh sqlite3 connection per operation and never
    executes PRAGMA foreign_keys = ON.  SQLite disables foreign-key
    enforcement by default (per connection), so the ON DELETE CASCADE clause
    declared in init_db is inert at runtime: delete_debtor removes only the
    debtors row and leaves the debts rows in place.  The embedding of
    delete_debtor reflects that actual runtime behaviour.
  - Monetary amounts are Python floats in the source; the embedding uses
    exact rationals (a real-number model of float arithmetic, as the spec
    itself prescribes: parse as a real number).  float(text) is modelled by
    a decimal-numeral parser (optional sign, digits, optional fraction);
    the exotic float spellings (exponents, inf, nan) are outside this
    real-number model.
  - Python dicts keyed by chat id (user_states, current_debtors,
    selected_debts) become association lists; a missing-key subscript
    (KeyError) is modelled by the raised flag of a step result, with any
    mutations performed before the raising access kept, in source order.
  - Outbound Telegram messages are abstracted to tags (Msg); message
    formatting is out of scope, but an f-string that subscripts a dict is
    still modelled as a potential KeyError access point.
-/

namespace DebtBot

/-- Association-list lookup, first binding wins (models Python dict get). -/
def alookup {α : Type} (k : Int) : List (Int × α) → Option α
  | [] => none
  | (k', v) :: t => if k = k' then some v else alookup k t

/-- Association-list update (models Python dict assignment d[k] = v). -/
def aset {α : Type} (k : Int) (v : α) (l : List (Int × α)) : List (Int × α) :=
  (k, v) :: l

/-- Association-list removal (models Python dict d.pop(k, None)). -/
def aerase {α : Type} (k : Int) (l : List (Int × α)) : List (Int × α) :=
  l.filter (fun p => decide (p.1 ≠ k))

theorem alookup_aset_self {α : Type} (k : Int) (v : α) (l : List (Int × α)) :
    alookup k (aset k v l) = some v := by
  simp [alookup, aset]

theorem alookup_aset_ne {α : Type} {k c : Int} (v : α) (l : List (Int × α))
    (h : c ≠ k) : alookup c (aset k v l) = alookup c l := by
  simp [alookup, aset, h]

theorem alookup_aerase {α : Type} (k c : Int) (l : List (Int × α)) :
    alookup c (aerase k l) = if c = k then none else alookup c l := by
  induction l with
  | nil => simp [alookup, aerase]
  | cons h t ih =>
    obtain ⟨k', v⟩ := h
    by_cases hk : k' = k
    · subst hk
      by_cases hc : c = k'
      · subst hc; simpa [aerase, alookup] using ih
      · simpa [aerase, alookup, hc] using ih
    · by_cases hc : c = k'
      · subst hc; simp [aerase, alookup, hk, Ne.symm hk]
      · simpa [aerase, alookup, hk, hc] using ih

theorem alookup_aset_none {α : Type} {k c : Int} {v : α} {l : List (Int × α)}
    (h : alookup c (aset k v l) = none) : alookup c l = none := by
  by_cases hc : c = k
  · subst hc; simp [alookup_aset_self] at h
  · rwa [alookup_aset_ne v l hc] at h

theorem alookup_aerase_none {α : Type} {k c : Int} {l : List (Int × α)}
    (h : alookup c (aerase k l) = none) : c = k ∨ alookup c l = none := by
  rcases alookup_aerase k c l ▸ h with h'
  by_cases hc : c = k
  · exact Or.inl hc
  · right; simpa [hc] using h'

/-! Character-level helpers shared by the numeric and date parsers. -/

/-- Splits a character list on a separator character; mirrors the way a
strptime literal separator cuts the input into digit groups. -/
def splitOnChar (sep : Char) : List Char → List (List Char)
  | [] => [[]]
  | c :: rest =>
    match splitOnChar sep rest with
    | [] => [[]]
    | h :: t => if c = sep then [] :: h :: t else (c :: h) :: t

def allDigits (cs : List Char) : Bool := cs.all Char.isDigit

def natOfDigits (cs : List Char) : Nat :=
  cs.foldl (fun a c => a * 10 + (c.toNat - 48)) 0

/-- Model of Python float(text) restricted to decimal numerals: optional
sign, integer digits, optional dot and fraction digits; at least one digit
overall (float accepts "5." and ".5"). -/
def parseFloatChars (cs : List Char) : Option ℚ :=
  match splitOnChar '.' cs with
  | [w] =>
    if allDigits w = true ∧ w ≠ [] then some (natOfDigits w : ℚ) else none
  | [w, f] =>
    if allDigits w = true ∧ allDigits f = true ∧ (w ≠ [] ∨ f ≠ []) then
      some ((natOfDigits w : ℚ) + (natOfDigits f : ℚ) / ((10 : ℚ) ^ f.length))
    else none
  | _ => none

def parseFloat (s : String) : Option ℚ :=
  match s.toList with
  | '-' :: rest => (parseFloatChars rest).map (fun q => -q)
  | '+' :: rest => parseFloatChars rest
  | cs => parseFloatChars cs

/-! Date parsing: the source tries strptime with the formats
"%d.%m.%Y", "%d.%m.%y", "%d-%m-%Y", "%d-%m-%y" in that order and keeps
the first success.  CPython strptime compiles %d to one or two digits in
1..31, %m to one or two digits in 1..12, %Y to exactly four digits and
%y to exactly two digits (00-68 maps to 2000+, 69-99 to 1900+), requires
the whole input to be consumed, and datetime construction then rejects
day numbers invalid for the month or a year outside 1..9999. -/

structure PDate where
  day : Nat
  month : Nat
  year : Nat
deriving DecidableEq, Repr

inductive DateFmt
  | dotsY4
  | dotsY2
  | dashY4
  | dashY2
deriving DecidableEq, Repr

def yearFrom2 (y : Nat) : Nat := if y ≤ 68 then 2000 + y else 1900 + y

def isLeap (y : Nat) : Bool :=
  y % 4 == 0 && (y % 100 != 0 || y % 400 == 0)

def daysInMonth (m y : Nat) : Nat :=
  if m = 2 then (if isLeap y then 29 else 28)
  else if m = 4 ∨ m = 6 ∨ m = 9 ∨ m = 11 then 30
  else 31

def fmtSep : DateFmt → Char
  | .dotsY4 => '.'
  | .dotsY2 => '.'
  | .dashY4 => '-'
  | .dashY2 => '-'

def fmtYear4 : DateFmt → Bool
  | .dotsY4 => true
  | .dashY4 => true
  | _ => false

/-- One strptime attempt for one of the four formats of the source. -/
def tryFormat (f : DateFmt) (text : String) : Option PDate :=
  match splitOnChar (fmtSep f) text.toList with
  | [ds, ms, ys] =>
    if allDigits ds = true ∧ 1 ≤ ds.length ∧ ds.length ≤ 2 ∧
       1 ≤ natOfDigits ds ∧ natOfDigits ds ≤ 31 ∧
       allDigits ms = true ∧ 1 ≤ ms.length ∧ ms.length ≤ 2 ∧
       1 ≤ natOfDigits ms ∧ natOfDigits ms ≤ 12 ∧
       allDigits ys = true ∧
       ys.length = (if fmtYear4 f then 4 else 2) then
      let d := natOfDigits ds
      let m := natOfDigits ms
      let y := if fmtYear4 f then natOfDigits ys else yearFrom2 (natOfDigits ys)
      if 1 ≤ y ∧ y ≤ 9999 ∧ d ≤ daysInMonth m y then some ⟨d, m, y⟩ else none
    else none
  | _ => none

/-- Runs the format list in order, keeping the first success; mirrors the
for-loop over date_formats in the source. -/
def firstFormat (text : String) : List DateFmt → Option PDate
  | [] => none
  | f :: t =>
    match tryFormat f text with
    | some d => some d
    | none => firstFormat text t

def dateFormats : List DateFmt := [.dotsY4, .dotsY2, .dashY4, .dashY2]

def parse_payment_date (text : String) : Option PDate :=
  firstFormat text dateFormats

def pad2 (n : Nat) : String := (if n < 10 then "0" else "") ++ toString n

def pad4 (n : Nat) : String :=
  (if n < 10 then "000" else if n < 100 then "00" else if n < 1000 then "0" else "")
    ++ toString n

/-- Model of payment_date.strftime of the source, day.month.year display. -/
def formatDate (d : PDate) : String :=
  pad2 d.day ++ "." ++ pad2 d.month ++ "." ++ pad4 d.year

/-- Two-decimal fixed formatting of a nonnegative cents count. -/
def fmt2nat (n : Nat) : String :=
  toString (n / 100) ++ "." ++ (if n % 100 < 10 then "0" else "") ++ toString (n % 100)

/-- Model of Python two-decimal float formatting on the exact rational value,
expressed over the normalized numerator and denominator: the cents count is
the magnitude times one hundred, rounded half up (the claims only exercise
values that are exact multiples of a hundredth, where every rounding mode
agrees). -/
def fmt2 (q : ℚ) : String :=
  if q.num < 0 then "-" ++ fmt2nat (((-q.num).toNat * 200 + q.den) / (2 * q.den))
  else fmt2nat ((q.num.toNat * 200 + q.den) / (2 * q.den))

/-! Ledger store: the two SQLite tables of init_db and the CRUD helpers. -/

/-- Row of the debtors table (id, name, chat_id, payment_date, payment_amount),
unique on (name, chat_id). -/
structure Debtor where
  id : Nat
  name : String
  chat_id : Int
  payment_date : Option PDate
  payment_amount : Option ℚ
deriving DecidableEq, Repr

/-- Row of the debts table (id, debtor_id, amount, reason). -/
structure Debt where
  id : Nat
  debtor_id : Nat
  amount : ℚ
  reason : String
deriving DecidableEq, Repr

/-- The backing store: both tables plus the AUTOINCREMENT counters. -/
structure DB where
  debtors : List Debtor
  debts : List Debt
  nextDebtorId : Nat
  nextDebtId : Nat
deriving DecidableEq, Repr

def emptyDB : DB := ⟨[], [], 1, 1⟩

def get_debtor_by_name (name : String) (chat : Int) (db : DB) : Option Debtor :=
  db.debtors.find? (fun d => decide (d.name = name ∧ d.chat_id = chat))

def get_debtor_by_id (debtor_id : Nat) (db : DB) : Option Debtor :=
  db.debtors.find? (fun d => decide (d.id = debtor_id))

/-- Model of add_debtor: INSERT, and on the (name, chat) uniqueness conflict
(sqlite3.IntegrityError) fetch and return the existing row instead; the
conflict path never raises.  The freshly inserted row has empty payment
fields, id = lastrowid. -/
def add_debtor (name : String) (chat : Int) (db : DB) : (Debtor × Bool) × DB :=
  match get_debtor_by_name name chat db with
  | some d => ((d, false), db)
  | none =>
    let d : Debtor := ⟨db.nextDebtorId, name, chat, none, none⟩
    ((d, true),
     { db with debtors := db.debtors ++ [d], nextDebtorId := db.nextDebtorId + 1 })

def add_debt (debtor_id : Nat) (amount : ℚ) (reason : String) (db : DB) : DB :=
  { db with debts := db.debts ++ [⟨db.nextDebtId, debtor_id, amount, reason⟩]
            nextDebtId := db.nextDebtId + 1 }

def list_debtors (chat : Int) (db : DB) : List Debtor :=
  db.debtors.filter (fun d => decide (d.chat_id = chat))

def list_debts (debtor_id : Nat) (db : DB) : List Debt :=
  db.debts.filter (fun d => decide (d.debtor_id = debtor_id))

def get_debt_by_id (debt_id : Nat) (db : DB) : Option Debt :=
  db.debts.find? (fun d => decide (d.id = debt_id))

def update_debt_amount (debt_id : Nat) (new_amount : ℚ) (db : DB) : DB :=
  { db with debts :=
      db.debts.map (fun d => if d.id = debt_id then { d with amount := new_amount } else d) }

def update_debt_reason (debt_id : Nat) (new_reason : String) (db : DB) : DB :=
  { db with debts :=
      db.debts.map (fun d => if d.id = debt_id then { d with reason := new_reason } else d) }

def close_debt (debt_id : Nat) (db : DB) : DB :=
  { db with debts := db.debts.filter (fun d => decide (d.id ≠ debt_id)) }

/-- Model of delete_debtor: DELETE FROM debtors WHERE id = ?.  Because no
connection ever runs PRAGMA foreign_keys = ON, SQLite does not act on the
ON DELETE CASCADE clause and the debts rows survive. -/
def delete_debtor (debtor_id : Nat) (db : DB) : DB :=
  { db with debtors := db.debtors.filter (fun d => decide (d.id ≠ debtor_id)) }

def update_debtor_payment_date (debtor_id : Nat) (pd : PDate) (db : DB) : DB :=
  { db with debtors :=
      db.debtors.map (fun d => if d.id = debtor_id then { d with payment_date := some pd } else d) }

def update_debtor_payment_amount (debtor_id : Nat) (a : ℚ) (db : DB) : DB :=
  { db with debtors :=
      db.debtors.map (fun d => if d.id = debtor_id then { d with payment_amount := some a } else d) }

def clear_debtor_payment_date (debtor_id : Nat) (db : DB) : DB :=
  { db with debtors :=
      db.debtors.map (fun d => if d.id = debtor_id then { d with payment_date := none } else d) }

def clear_debtor_payment_amount (debtor_id : Nat) (db : DB) : DB :=
  { db with debtors :=
      db.debtors.map (fun d => if d.id = debtor_id then { d with payment_amount := none } else d) }

/-! Export encoder: generate_csv. -/

def csvHeader : List String :=
  ["debtor name", "total debt", "payment date", "payment amount", "debt reason", "debt amount"]

/-- Payment-date column of a debtor's rows: formatted date or empty. -/
def pdateStr (dr : Debtor) : String :=
  match dr.payment_date with
  | some d => formatDate d
  | none => ""

/-- Payment-amount column: two-decimal amount or empty; the source tests
Python truthiness, under which the amount 0.0 also renders empty. -/
def pamtStr (dr : Debtor) : String :=
  match dr.payment_amount with
  | some a => if a = 0 then "" else fmt2 a
  | none => ""

def debtorTotal (debtor_id : Nat) (db : DB) : ℚ :=
  ((list_debts debtor_id db).map Debt.amount).sum

/-- Rows the export writes for one debtor: one per debt, or one sentinel
row with empty reason and a zero debt amount when the debtor has no debts. -/
def debtorRows (db : DB) (dr : Debtor) : List (List String) :=
  let debts := list_debts dr.id db
  let total := (debts.map Debt.amount).sum
  match debts with
  | [] => [[dr.name, fmt2 total, pdateStr dr, pamtStr dr, "", "0.00"]]
  | _ => debts.map (fun dt =>
      [dr.name, fmt2 total, pdateStr dr, pamtStr dr, dt.reason, fmt2 dt.amount])

/-- Model of generate_csv: absent when the chat has no debtors, otherwise
the header row followed by each debtor's rows. -/
def generate_csv (chat : Int) (db : DB) : Option (List (List String)) :=
  let ds := list_debtors chat db
  if ds.isEmpty then none
  else some (csvHeader :: (ds.map (debtorRows db)).flatten)

/-! Session context and the conversation state machine. -/

/-- Conversation states; the source names them STATE_IDLE .. and keeps the
current one per chat in user_states (absence means idle). -/
inductive ChatState
  | idle
  | addingDebtorName
  | addingDebtReason
  | addingDebtAmount
  | editingChooseDebt
  | editingChooseWhatToEdit
  | editingAmount
  | editingReason
  | confirmingCloseDebt
  | subtractingFromDebt
  | confirmingDeleteDebtor
  | settingPaymentDate
  | settingPaymentAmount
  | editingPaymentDate
  | editingPaymentAmount
deriving DecidableEq, Repr

/-- Shapes the source stores in selected_debts: the full debt dict (from the
close/edit/subtract buttons), an id-only dict (from the edit-amount and
edit-reason buttons), or the pending debtor_id/reason pair of the add flow. -/
inductive DebtSel
  | full (d : Debt)
  | idOnly (debt_id : Nat)
  | pending (debtor_id : Nat) (reason : String)
deriving DecidableEq, Repr

/-- Subscript of the selected-debts dict at the key "id"; absent on the
pending shape (whose dict has no "id" entry) models the KeyError. -/
def selId : DebtSel → Option Nat
  | .full d => some d.id
  | .idOnly i => some i
  | .pending _ _ => none

/-- Subscript at the key "reason". -/
def selReason : DebtSel → Option String
  | .full d => some d.reason
  | .pending _ r => some r
  | .idOnly _ => none

/-- Outbound replies, abstracted to tags; detailView carries the debtor id
the detail screen was rendered for. -/
inductive Msg
  | greeting
  | helpText
  | noDebtors
  | debtorList
  | noCsvData
  | csvDocument (rows : List (List String))
  | askDebtorName
  | debtorExists
  | askDebtReason
  | askDebtAmount
  | invalidAmount
  | debtAdded
  | amountUpdated
  | reasonUpdated
  | sumExceedsDebt
  | debtRepaidClosed
  | subtractedRemainder
  | invalidDate
  | paymentDateSet
  | paymentAmountSet
  | paymentDateUpdated
  | paymentAmountUpdated
  | paymentDateCleared
  | paymentAmountCleared
  | usageHint
  | debtorNotFound
  | debtNotFound
  | debtClosed
  | operationCancelled
  | confirmCloseQuestion
  | whatToEdit
  | askNewAmount
  | askNewReason
  | askSubtractAmount
  | confirmDeleteQuestion
  | debtorDeleted
  | askPaymentDate
  | askPaymentAmount
  | noCurrentDebtor
  | detailView (debtor_id : Nat)
deriving DecidableEq, Repr

/-- The whole mutable world: the store plus the three process-wide dicts. -/
structure GState where
  db : DB
  states : List (Int × ChatState)
  currentDebtors : List (Int × Debtor)
  selectedDebts : List (Int × DebtSel)
deriving DecidableEq, Repr

def initState : GState := ⟨emptyDB, [], [], []⟩

/-- Result of handling one update: the new world, the replies sent, and
whether the handler aborted with an uncaught KeyError (raised = true keeps
every mutation made before the raising dict access). -/
structure StepResult where
  state : GState
  msgs : List Msg
  raised : Bool
deriving DecidableEq, Repr

def chatState (chat : Int) (s : GState) : ChatState :=
  (alookup chat s.states).getD .idle

/-- Model of clear_user_state: drops the state and selected-debt entries of
the chat; the current-debtor entry is deliberately kept (the source comments
the pop of current_debtors out). -/
def clear_user_state (chat : Int) (s : GState) : GState :=
  { s with
      states := aerase chat s.states
      selectedDebts := aerase chat s.selectedDebts }

/-- Model of show_debtor_details: reload the debtor (reporting when it
vanished), store it as the chat's current debtor, render the detail view. -/
def show_debtor_details (chat : Int) (debtor_id : Nat) (s : GState) :
    GState × List Msg :=
  match get_debtor_by_id debtor_id s.db with
  | none => (s, [.debtorNotFound])
  | some d => ({ s with currentDebtors := aset chat d s.currentDebtors },
               [.detailView debtor_id])

/-- The five command handlers; each resets the session state first. -/
inductive Cmd
  | start
  | add
  | debts
  | help
  | exportcsv
deriving DecidableEq, Repr

def handle_command (chat : Int) (c : Cmd) (s : GState) : StepResult :=
  match c with
  | .start => ⟨clear_user_state chat s, [.greeting], false⟩
  | .add =>
    let s1 := clear_user_state chat s
    ⟨{ s1 with states := aset chat .addingDebtorName s1.states }, [.askDebtorName], false⟩
  | .debts =>
    let s1 := clear_user_state chat s
    if (list_debtors chat s.db).isEmpty then ⟨s1, [.noDebtors], false⟩
    else ⟨s1, [.debtorList], false⟩
  | .help => ⟨clear_user_state chat s, [.helpText], false⟩
  | .exportcsv =>
    let s1 := clear_user_state chat s
    match generate_csv chat s.db with
    | none => ⟨s1, [.noCsvData], false⟩
    | some rows => ⟨s1, [.csvDocument rows], false⟩

/-- Model of handle_message: dispatch on the chat's conversation state, in
the order and with the exact validation and mutation sequence of the source. -/
def handle_message (chat : Int) (text : String) (s : GState) : StepResult :=
  match chatState chat s with
  | .addingDebtorName =>
    let r0 := add_debtor text chat s.db
    if r0.1.2 then
      ⟨{ s with
          db := r0.2
          currentDebtors := aset chat r0.1.1 s.currentDebtors
          states := aset chat .addingDebtReason s.states }, [.askDebtReason], false⟩
    else ⟨{ s with db := r0.2 }, [.debtorExists], false⟩
  | .addingDebtReason =>
    match alookup chat s.currentDebtors with
    | none => ⟨s, [], true⟩
    | some cd =>
      ⟨{ s with
          selectedDebts := aset chat (.pending cd.id text) s.selectedDebts
          states := aset chat .addingDebtAmount s.states }, [.askDebtAmount], false⟩
  | .addingDebtAmount =>
    match parseFloat text with
    | none => ⟨s, [.invalidAmount], false⟩
    | some a =>
      if a ≤ 0 then ⟨s, [.invalidAmount], false⟩
      else
        match alookup chat s.currentDebtors with
        | none => ⟨s, [], true⟩
        | some cd =>
          match alookup chat s.selectedDebts with
          | none => ⟨s, [], true⟩
          | some sel =>
            match selReason sel with
            | none => ⟨s, [], true⟩
            | some r =>
              let s1 := { s with db := add_debt cd.id a r s.db }
              ⟨clear_user_state chat s1, [.debtAdded], false⟩
  | .editingAmount =>
    match parseFloat text with
    | none => ⟨s, [.invalidAmount], false⟩
    | some a =>
      if a ≤ 0 then ⟨s, [.invalidAmount], false⟩
      else
        match (alookup chat s.selectedDebts).bind selId with
        | none => ⟨s, [], true⟩
        | some i =>
          let s1 := { s with db := update_debt_amount i a s.db }
          match alookup chat s1.currentDebtors with
          | none => ⟨s1, [.amountUpdated], true⟩
          | some cd =>
            let r := show_debtor_details chat cd.id s1
            ⟨clear_user_state chat r.1, .amountUpdated :: r.2, false⟩
  | .editingReason =>
    match (alookup chat s.selectedDebts).bind selId with
    | none => ⟨s, [], true⟩
    | some i =>
      let s1 := { s with db := update_debt_reason i text s.db }
      match alookup chat s1.currentDebtors with
      | none => ⟨s1, [.reasonUpdated], true⟩
      | some cd =>
        let r := show_debtor_details chat cd.id s1
        ⟨clear_user_state chat r.1, .reasonUpdated :: r.2, false⟩
  | .subtractingFromDebt =>
    match parseFloat text with
    | none => ⟨s, [.invalidAmount], false⟩
    | some a =>
      if a ≤ 0 then ⟨s, [.invalidAmount], false⟩
      else
        match alookup chat s.selectedDebts with
        | none => ⟨s, [], true⟩
        | some sel =>
          match sel with
          | .full d =>
            if a > d.amount then ⟨s, [.sumExceedsDebt], false⟩
            else
              let na := d.amount - a
              let s1 := { s with db := update_debt_amount d.id na s.db }
              let p : GState × List Msg :=
                if na = 0 then ({ s1 with db := close_debt d.id s1.db }, [.debtRepaidClosed])
                else (s1, [.subtractedRemainder])
              let r := show_debtor_details chat d.debtor_id p.1
              ⟨clear_user_state chat r.1, p.2 ++ r.2, false⟩
          | _ => ⟨s, [], true⟩
  | .settingPaymentDate =>
    match parse_payment_date text with
    | none => ⟨s, [.invalidDate], false⟩
    | some pd =>
      match alookup chat s.currentDebtors with
      | none => ⟨s, [], true⟩
      | some cd =>
        let s1 := { s with db := update_debtor_payment_date cd.id pd s.db }
        let r := show_debtor_details chat cd.id s1
        ⟨clear_user_state chat r.1, .paymentDateSet :: r.2, false⟩
  | .settingPaymentAmount =>
    match parseFloat text with
    | none => ⟨s, [.invalidAmount], false⟩
    | some a =>
      if a ≤ 0 then ⟨s, [.invalidAmount], false⟩
      else
        match alookup chat s.currentDebtors with
        | none => ⟨s, [], true⟩
        | some cd =>
          let s1 := { s with db := update_debtor_payment_amount cd.id a s.db }
          let r := show_debtor_details chat cd.id s1
          ⟨clear_user_state chat r.1, .paymentAmountSet :: r.2, false⟩
  | .editingPaymentDate =>
    match parse_payment_date text with
    | none => ⟨s, [.invalidDate], false⟩
    | some pd =>
      match alookup chat s.currentDebtors with
      | none => ⟨s, [], true⟩
      | some cd =>
        let s1 := { s with db := update_debtor_payment_date cd.id pd s.db }
        let r := show_debtor_details chat cd.id s1
        ⟨clear_user_state chat r.1, .paymentDateUpdated :: r.2, false⟩
  | .editingPaymentAmount =>
    match parseFloat text with
    | none => ⟨s, [.invalidAmount], false⟩
    | some a =>
      if a ≤ 0 then ⟨s, [.invalidAmount], false⟩
      else
        match alookup chat s.currentDebtors with
        | none => ⟨s, [], true⟩
        | some cd =>
          let s1 := { s with db := update_debtor_payment_amount cd.id a s.db }
          let r := show_debtor_details chat cd.id s1
          ⟨clear_user_state chat r.1, .paymentAmountUpdated :: r.2, false⟩
  | _ => ⟨clear_user_state chat s, [.usageHint], false⟩

/-- Button events: action tag plus the optional embedded numeric id. -/
inductive CbData
  | selectDebtor (debtor_id : Nat)
  | closeDebt (debt_id : Nat)
  | confirmClose (debt_id : Nat)
  | cancelOperation
  | editDebt (debt_id : Nat)
  | editAmount (debt_id : Nat)
  | editReason (debt_id : Nat)
  | subtractFromDebt (debt_id : Nat)
  | addDebtToExisting
  | deleteDebtor
  | confirmDeleteDebtor
  | setPaymentDate
  | setPaymentAmount
  | clearPaymentDate
  | clearPaymentAmount
  | editPaymentDate
  | editPaymentAmount
deriving DecidableEq, Repr

/-- Model of handle_callback_query, branch for branch. -/
def handle_callback_query (chat : Int) (d : CbData) (s : GState) : StepResult :=
  match d with
  | .selectDebtor i =>
    match get_debtor_by_id i s.db with
    | none => ⟨clear_user_state chat s, [.debtorNotFound], false⟩
    | some dr =>
      let s1 := { s with currentDebtors := aset chat dr s.currentDebtors }
      let s2 := clear_user_state chat s1
      let r := show_debtor_details chat i s2
      ⟨r.1, r.2, false⟩
  | .closeDebt i =>
    match get_debt_by_id i s.db with
    | none => ⟨s, [.debtNotFound], false⟩
    | some dt =>
      ⟨{ s with
          selectedDebts := aset chat (.full dt) s.selectedDebts
          states := aset chat .confirmingCloseDebt s.states }, [.confirmCloseQuestion], false⟩
  | .confirmClose i =>
    let s1 := { s with db := close_debt i s.db }
    match alookup chat s1.currentDebtors with
    | none => ⟨clear_user_state chat s1, [.debtClosed], false⟩
    | some cd =>
      let r := show_debtor_details chat cd.id s1
      ⟨clear_user_state chat r.1, .debtClosed :: r.2, false⟩
  | .cancelOperation =>
    match alookup chat s.currentDebtors with
    | none => ⟨clear_user_state chat s, [.operationCancelled], false⟩
    | some cd =>
      let r := show_debtor_details chat cd.id s
      ⟨clear_user_state chat r.1, .operationCancelled :: r.2, false⟩
  | .editDebt i =>
    match get_debt_by_id i s.db with
    | none => ⟨s, [.debtNotFound], false⟩
    | some dt =>
      ⟨{ s with
          selectedDebts := aset chat (.full dt) s.selectedDebts
          states := aset chat .editingChooseWhatToEdit s.states }, [.whatToEdit], false⟩
  | .editAmount i =>
    ⟨{ s with
        selectedDebts := aset chat (.idOnly i) s.selectedDebts
        states := aset chat .editingAmount s.states }, [.askNewAmount], false⟩
  | .editReason i =>
    ⟨{ s with
        selectedDebts := aset chat (.idOnly i) s.selectedDebts
        states := aset chat .editingReason s.states }, [.askNewReason], false⟩
  | .subtractFromDebt i =>
    match get_debt_by_id i s.db with
    | none => ⟨s, [.debtNotFound], false⟩
    | some dt =>
      ⟨{ s with
          selectedDebts := aset chat (.full dt) s.selectedDebts
          states := aset chat .subtractingFromDebt s.states }, [.askSubtractAmount], false⟩
  | .addDebtToExisting =>
    let s1 := { s with states := aset chat .addingDebtReason s.states }
    match alookup chat s1.currentDebtors with
    | none => ⟨s1, [], true⟩
    | some _ => ⟨s1, [.askDebtReason], false⟩
  | .deleteDebtor =>
    let s1 := { s with states := aset chat .confirmingDeleteDebtor s.states }
    match alookup chat s1.currentDebtors with
    | none => ⟨s1, [], true⟩
    | some _ => ⟨s1, [.confirmDeleteQuestion], false⟩
  | .confirmDeleteDebtor =>
    match alookup chat s.currentDebtors with
    | none => ⟨s, [], true⟩
    | some cd =>
      let s1 := { s with db := delete_debtor cd.id s.db }
      let s2 := { s1 with currentDebtors := aerase chat s1.currentDebtors }
      ⟨clear_user_state chat s2, [.debtorDeleted], false⟩
  | .setPaymentDate =>
    ⟨{ s with states := aset chat .settingPaymentDate s.states }, [.askPaymentDate], false⟩
  | .setPaymentAmount =>
    ⟨{ s with states := aset chat .settingPaymentAmount s.states }, [.askPaymentAmount], false⟩
  | .clearPaymentDate =>
    match alookup chat s.currentDebtors with
    | none => ⟨clear_user_state chat s, [.noCurrentDebtor], false⟩
    | some cd =>
      let s1 := { s with db := clear_debtor_payment_date cd.id s.db }
      let r := show_debtor_details chat cd.id s1
      ⟨clear_user_state chat r.1, .paymentDateCleared :: r.2, false⟩
  | .clearPaymentAmount =>
    match alookup chat s.currentDebtors with
    | none => ⟨clear_user_state chat s, [.noCurrentDebtor], false⟩
    | some cd =>
      let s1 := { s with db := clear_debtor_payment_amount cd.id s.db }
      let r := show_debtor_details chat cd.id s1
      ⟨clear_user_state chat r.1, .paymentAmountCleared :: r.2, false⟩
  | .editPaymentDate =>
    ⟨{ s with states := aset chat .editingPaymentDate s.states }, [.askPaymentDate], false⟩
  | .editPaymentAmount =>
    ⟨{ s with states := aset chat .editingPaymentAmount s.states }, [.askPaymentAmount], false⟩

/-- One incoming update of the public interface. -/
inductive Event
  | cmd (chat : Int) (c : Cmd)
  | msg (chat : Int) (text : String)
  | cb (chat : Int) (d : CbData)

/-- The engine step: dispatch one update to its handler. -/
def step (s : GState) (e : Event) : StepResult :=
  match e with
  | .cmd chat c => handle_command chat c s
  | .msg chat t => handle_message chat t s
  | .cb chat d => handle_callback_query chat d s

/-- States reachable from process start through the public interface. -/
inductive Reachable : GState → Prop
  | init : Reachable initState
  | next (s : GState) (e : Event) : Reachable s → Reachable (step s e).state

/-! Basic facts about the store operations and the session helpers. -/

theorem find?_filter_ne_id (i : Nat) (l : List Debt) :
    (l.filter (fun d => decide (d.id ≠ i))).find? (fun d => decide (d.id = i)) = none := by
  induction l with
  | nil => rfl
  | cons h t ih =>
    by_cases hh : h.id = i
    · simpa [List.filter, hh] using ih
    · simpa [List.filter, hh] using ih

theorem get_debt_by_id_close_self (i : Nat) (db : DB) :
    get_debt_by_id i (close_debt i db) = none := by
  simpa [get_debt_by_id, close_debt] using find?_filter_ne_id i db.debts

theorem find?_filter_ne_debtor (i : Nat) (l : List Debtor) :
    (l.filter (fun d => decide (d.id ≠ i))).find? (fun d => decide (d.id = i)) = none := by
  induction l with
  | nil => rfl
  | cons h t ih =>
    by_cases hh : h.id = i
    · simpa [List.filter, hh] using ih
    · simpa [List.filter, hh] using ih

theorem get_debtor_by_id_delete_self (i : Nat) (db : DB) :
    get_debtor_by_id i (delete_debtor i db) = none := by
  simpa [get_debtor_by_id, delete_debtor] using find?_filter_ne_debtor i db.debtors

theorem find?_update_amount (i : Nat) (v : ℚ) (l : List Debt) :
    (l.map (fun d => if d.id = i then { d with amount := v } else d)).find?
        (fun d => decide (d.id = i))
      = (l.find? (fun d => decide (d.id = i))).map (fun d => { d with amount := v }) := by
  induction l with
  | nil => rfl
  | cons h t ih =>
    by_cases hh : h.id = i
    · simp [List.find?, hh]
    · simp [List.find?, hh, ih]

theorem get_debt_by_id_update (i : Nat) (v : ℚ) (db : DB) :
    get_debt_by_id i (update_debt_amount i v db)
      = (get_debt_by_id i db).map (fun d => { d with amount := v }) := by
  simpa [get_debt_by_id, update_debt_amount] using find?_update_amount i v db.debts

theorem clear_user_state_db (chat : Int) (s : GState) :
    (clear_user_state chat s).db = s.db := rfl

theorem clear_user_state_currentDebtors (chat : Int) (s : GState) :
    (clear_user_state chat s).currentDebtors = s.currentDebtors := rfl

theorem chatState_clear (chat : Int) (s : GState) :
    chatState chat (clear_user_state chat s) = .idle := by
  simp [chatState, clear_user_state, alookup_aerase]

theorem selected_clear (chat : Int) (s : GState) :
    alookup chat (clear_user_state chat s).selectedDebts = none := by
  simp [clear_user_state, alookup_aerase]

theorem sdd_states (chat : Int) (i : Nat) (s : GState) :
    (show_debtor_details chat i s).1.states = s.states := by
  unfold show_debtor_details
  cases get_debtor_by_id i s.db <;> rfl

theorem sdd_db (chat : Int) (i : Nat) (s : GState) :
    (show_debtor_details chat i s).1.db = s.db := by
  unfold show_debtor_details
  cases get_debtor_by_id i s.db <;> rfl

theorem sdd_selectedDebts (chat : Int) (i : Nat) (s : GState) :
    (show_debtor_details chat i s).1.selectedDebts = s.selectedDebts := by
  unfold show_debtor_details
  cases get_debtor_by_id i s.db <;> rfl

theorem sdd_cd_none {chat : Int} {i : Nat} {s : GState} {c : Int}
    (h : alookup c (show_debtor_details chat i s).1.currentDebtors = none) :
    alookup c s.currentDebtors = none := by
  unfold show_debtor_details at h
  rcases hg : get_debtor_by_id i s.db with _ | d
  · simpa [hg] using h
  · rw [hg] at h
    exact alookup_aset_none (by simpa using h)

/-! Claim C1.  The spec says deleting a debtor also removes all of its debt
rows.  The schema does declare ON DELETE CASCADE and the delete_debtor
docstring promises the cascade, but no sqlite3 connection in the source ever
runs PRAGMA foreign_keys = ON, so SQLite leaves the clause unenforced and the
debts survive as orphans: the code contradicts its own documentation. -/

/-- Claim C1 (code bug witness): with one debtor (id 1) owning one debt,
delete_debtor(1) removes the debtor row, yet listing debts for id 1 still
returns the debt row instead of the empty list the claim requires. -/
theorem claim1_cascade_not_enforced :
    get_debtor_by_id 1
        (delete_debtor 1 (add_debt 1 100 "lunch" (add_debtor "Ivan" 1 emptyDB).2)) = none ∧
    list_debts 1
        (delete_debtor 1 (add_debt 1 100 "lunch" (add_debtor "Ivan" 1 emptyDB).2))
      = [⟨1, 1, 100, "lunch"⟩] := by
  constructor <;> rfl

/-! Claim C6: adding the same debtor twice. -/

theorem add_debtor_found {name : String} {chat : Int} {db : DB} {d : Debtor}
    (h : get_debtor_by_name name chat db = some d) :
    add_debtor name chat db = ((d, false), db) := by
  unfold add_debtor
  rw [h]

theorem add_debtor_new {name : String} {chat : Int} {db : DB}
    (h : get_debtor_by_name name chat db = none) :
    add_debtor name chat db
      = ((⟨db.nextDebtorId, name, chat, none, none⟩, true),
         { db with
             debtors := db.debtors ++ [⟨db.nextDebtorId, name, chat, none, none⟩]
             nextDebtorId := db.nextDebtorId + 1 }) := by
  unfold add_debtor
  rw [h]

theorem find?_append_none {α : Type} {p : α → Bool} {l₁ : List α} (l₂ : List α)
    (h : l₁.find? p = none) : (l₁ ++ l₂).find? p = l₂.find? p := by
  induction l₁ with
  | nil => rfl
  | cons a t ih =>
    by_cases ha : p a
    · simp [List.find?, ha] at h
    · simp only [List.cons_append, List.find?, ha] at h ⊢
      exact ih h

/-- Claim C6: for every name and chat id with no debtor of that name yet,
add_debtor returns isNew = true on the first call and isNew = false on the
second identical call, both calls return the same debtor id, and the
conflicting second call takes the non-raising fetch path by construction. -/
theorem claim6_add_debtor_twice (name : String) (chat : Int) (db : DB)
    (h : get_debtor_by_name name chat db = none) :
    (add_debtor name chat db).1.2 = true ∧
    (add_debtor name chat (add_debtor name chat db).2).1.2 = false ∧
    (add_debtor name chat (add_debtor name chat db).2).1.1.id
      = (add_debtor name chat db).1.1.id := by
  rw [add_debtor_new h]
  have h2 : get_debtor_by_name name chat
      ({ db with
           debtors := db.debtors ++ [⟨db.nextDebtorId, name, chat, none, none⟩]
           nextDebtorId := db.nextDebtorId + 1 } : DB)
      = some ⟨db.nextDebtorId, name, chat, none, none⟩ := by
    unfold get_debtor_by_name at h ⊢
    simp only []
    rw [find?_append_none _ h]
    simp [List.find?]
  rw [add_debtor_found h2]
  exact ⟨rfl, rfl, rfl⟩

/-- Claim C6 witness at a concrete input: the empty store, name Ivan, chat 1. -/
theorem claim6_witness :
    get_debtor_by_name "Ivan" 1 emptyDB = none ∧
    ((add_debtor "Ivan" 1 emptyDB).1.2 = true ∧
     (add_debtor "Ivan" 1 (add_debtor "Ivan" 1 emptyDB).2).1.2 = false ∧
     (add_debtor "Ivan" 1 (add_debtor "Ivan" 1 emptyDB).2).1.1.id
       = (add_debtor "Ivan" 1 emptyDB).1.1.id) :=
  ⟨by decide, claim6_add_debtor_twice "Ivan" 1 emptyDB (by decide)⟩

/-! Claim C9: payment-date parsing order and the concrete round trip. -/

/-- Claim C9: date input tries dd.mm.yyyy, dd.mm.yy, dd-mm-yyyy, dd-mm-yy in
that fixed order taking the first success; no match makes the handler
re-prompt and stay in the same state; and the input 05.03.25 fails the
four-digit-year format, parses under dd.mm.yy to 5 March 2025, and displays
as 05.03.2025. -/
theorem claim9_date_parsing :
    (∀ text : String, parse_payment_date text =
      (match tryFormat .dotsY4 text with
       | some d => some d
       | none =>
         match tryFormat .dotsY2 text with
         | some d => some d
         | none =>
           match tryFormat .dashY4 text with
           | some d => some d
           | none => tryFormat .dashY2 text)) ∧
    (∀ (chat : Int) (text : String) (s : GState),
       chatState chat s = .settingPaymentDate →
       parse_payment_date text = none →
       handle_message chat text s = ⟨s, [.invalidDate], false⟩) ∧
    tryFormat .dotsY4 "05.03.25" = none ∧
    tryFormat .dotsY2 "05.03.25" = some ⟨5, 3, 2025⟩ ∧
    parse_payment_date "05.03.25" = some ⟨5, 3, 2025⟩ ∧
    formatDate ⟨5, 3, 2025⟩ = "05.03.2025" := by
  refine ⟨?_, ?_, by decide, by decide, by decide, by decide⟩
  · intro text
    rcases h1 : tryFormat .dotsY4 text with _ | d1 <;>
      rcases h2 : tryFormat .dotsY2 text with _ | d2 <;>
        rcases h3 : tryFormat .dashY4 text with _ | d3 <;>
          rcases h4 : tryFormat .dashY2 text with _ | d4 <;>
            simp [parse_payment_date, dateFormats, firstFormat, h1, h2, h3, h4]
  · intro chat text s hst hp
    simp [handle_message, hst, hp]

/-- Claim C9 witness: a concrete chat in the set-payment-date state with an
unparseable date is re-prompted in place, and the scenario date parses. -/
theorem claim9_witness :
    parse_payment_date "99.99.9999" = none ∧
    handle_message 0 "99.99.9999" ⟨emptyDB, [(0, .settingPaymentDate)], [], []⟩
      = ⟨⟨emptyDB, [(0, .settingPaymentDate)], [], []⟩, [.invalidDate], false⟩ :=
  ⟨by decide,
   claim9_date_parsing.2.1 0 "99.99.9999" ⟨emptyDB, [(0, .settingPaymentDate)], [], []⟩
     (by decide) (by decide)⟩

/-! Claim C10: text input in the payment-date, payment-amount and debt-reason
states with no recorded debtor focus hits an unguarded dict subscript. -/

/-- Claim C10: in SettingPaymentDate, SettingPaymentAmount and
AddingDebtReason, a text message that passes the branch's validation while
the chat has no current-debtor entry makes handle_message subscript the
missing focus dict and abort with an uncaught KeyError: no reply is sent and
nothing is mutated. -/
theorem claim10_missing_focus_raises :
    (∀ (chat : Int) (text : String) (s : GState) (pd : PDate),
       chatState chat s = .settingPaymentDate →
       alookup chat s.currentDebtors = none →
       parse_payment_date text = some pd →
       handle_message chat text s = ⟨s, [], true⟩) ∧
    (∀ (chat : Int) (text : String) (s : GState) (a : ℚ),
       chatState chat s = .settingPaymentAmount →
       alookup chat s.currentDebtors = none →
       parseFloat text = some a → 0 < a →
       handle_message chat text s = ⟨s, [], true⟩) ∧
    (∀ (chat : Int) (text : String) (s : GState),
       chatState chat s = .addingDebtReason →
       alookup chat s.currentDebtors = none →
       handle_message chat text s = ⟨s, [], true⟩) := by
  refine ⟨?_, ?_, ?_⟩
  · intro chat text s pd hst hcd hp
    simp [handle_message, hst, hp, hcd]
  · intro chat text s a hst hcd hp ha
    simp [handle_message, hst, hp, hcd, not_le.mpr ha]
  · intro chat text s hst hcd
    simp [handle_message, hst, hcd]

/-- Claim C10 witness: chat 0 parked in SettingPaymentDate with no focus
entry; a well-formed date then raises instead of replying. -/
theorem claim10_witness :
    chatState 0 (⟨emptyDB, [(0, .settingPaymentDate)], [], []⟩ : GState)
      = .settingPaymentDate ∧
    alookup 0 (⟨emptyDB, [(0, .settingPaymentDate)], [], []⟩ : GState).currentDebtors
      = none ∧
    handle_message 0 "05.03.2025" ⟨emptyDB, [(0, .settingPaymentDate)], [], []⟩
      = ⟨⟨emptyDB, [(0, .settingPaymentDate)], [], []⟩, [], true⟩ :=
  ⟨by decide, by decide,
   claim10_missing_focus_raises.1 0 "05.03.2025"
     ⟨emptyDB, [(0, .settingPaymentDate)], [], []⟩ ⟨5, 3, 2025⟩
     (by decide) (by decide) (by decide)⟩

/-! Claims C2 and C3: partial repayment in SubtractingFromDebt. -/

/-- Claim C3: in SubtractingFromDebt, a parsed amount strictly above the
focused debt's amount is rejected outright: the handler returns the world
unchanged (so the debt row and the store are untouched) with only the
rejection reply, and the chat is still in SubtractingFromDebt. -/
theorem claim3_overdraft_rejected (chat : Int) (text : String) (s : GState)
    (sel : Debt) (a : ℚ)
    (hst : chatState chat s = .subtractingFromDebt)
    (hsel : alookup chat s.selectedDebts = some (.full sel))
    (hp : parseFloat text = some a)
    (hpos : 0 ≤ sel.amount)
    (ha : sel.amount < a) :
    handle_message chat text s = ⟨s, [.sumExceedsDebt], false⟩ ∧
    chatState chat (handle_message chat text s).state = .subtractingFromDebt := by
  have hmain : handle_message chat text s = ⟨s, [.sumExceedsDebt], false⟩ := by
    simp [handle_message, hst, hsel, hp, not_le.mpr (lt_of_le_of_lt hpos ha), ha]
  exact ⟨hmain, by rw [hmain]; exact hst⟩

/-- Claim C3 witness: focused debt of amount 100, input 150. -/
theorem claim3_witness :
    parseFloat "150" = some 150 ∧
    handle_message 0 "150"
        ⟨⟨[⟨1, "Ivan", 1, none, none⟩], [⟨1, 1, 100, "lunch"⟩], 2, 2⟩,
         [(0, .subtractingFromDebt)], [], [(0, .full ⟨1, 1, 100, "lunch"⟩)]⟩
      = ⟨⟨⟨[⟨1, "Ivan", 1, none, none⟩], [⟨1, 1, 100, "lunch"⟩], 2, 2⟩,
         [(0, .subtractingFromDebt)], [], [(0, .full ⟨1, 1, 100, "lunch"⟩)]⟩,
         [.sumExceedsDebt], false⟩ :=
  ⟨by decide,
   (claim3_overdraft_rejected 0 "150"
     ⟨⟨[⟨1, "Ivan", 1, none, none⟩], [⟨1, 1, 100, "lunch"⟩], 2, 2⟩,
      [(0, .subtractingFromDebt)], [], [(0, .full ⟨1, 1, 100, "lunch"⟩)]⟩
     ⟨1, 1, 100, "lunch"⟩ 150 (by decide) (by decide) (by decide) (by decide)
     (by decide)).1⟩

/-- Claim C2: in SubtractingFromDebt, a parsed positive amount not above the
focused debt's amount completes the repayment without raising: repaying the
exact amount deletes the debt (lookup by its id afterwards is absent),
repaying strictly less rewrites the stored row to current minus subtracted,
and in both cases the chat ends in Idle. -/
theorem claim2_subtract_repay (chat : Int) (text : String) (s : GState)
    (sel : Debt) (a : ℚ)
    (hst : chatState chat s = .subtractingFromDebt)
    (hsel : alookup chat s.selectedDebts = some (.full sel))
    (hp : parseFloat text = some a)
    (ha0 : 0 < a) (hle : a ≤ sel.amount) :
    (handle_message chat text s).raised = false ∧
    chatState chat (handle_message chat text s).state = .idle ∧
    (a = sel.amount →
       get_debt_by_id sel.id (handle_message chat text s).state.db = none) ∧
    (a < sel.amount →
       get_debt_by_id sel.id (handle_message chat text s).state.db
         = (get_debt_by_id sel.id s.db).map
             (fun d0 => { d0 with amount := sel.amount - a })) := by
  have hnle : ¬ a ≤ 0 := not_le.mpr ha0
  have hngt : ¬ a > sel.amount := not_lt.mpr hle
  by_cases hz : sel.amount - a = 0
  · have hred : handle_message chat text s =
        ⟨clear_user_state chat (show_debtor_details chat sel.debtor_id
            { s with db := close_debt sel.id (update_debt_amount sel.id (sel.amount - a) s.db) }).1,
         .debtRepaidClosed :: (show_debtor_details chat sel.debtor_id
            { s with db := close_debt sel.id (update_debt_amount sel.id (sel.amount - a) s.db) }).2,
         false⟩ := by
      simp [handle_message, hst, hsel, hp, hnle, hngt, hz]
    refine ⟨by rw [hred], ?_, ?_, ?_⟩
    · rw [hred]
      exact chatState_clear chat _
    · intro _
      rw [hred]
      show get_debt_by_id sel.id (show_debtor_details chat sel.debtor_id _).1.db = none
      rw [sdd_db]
      exact get_debt_by_id_close_self sel.id _
    · intro hlt
      exact absurd (sub_eq_zero.mp hz).symm (ne_of_lt hlt)
  · have hred : handle_message chat text s =
        ⟨clear_user_state chat (show_debtor_details chat sel.debtor_id
            { s with db := update_debt_amount sel.id (sel.amount - a) s.db }).1,
         .subtractedRemainder :: (show_debtor_details chat sel.debtor_id
            { s with db := update_debt_amount sel.id (sel.amount - a) s.db }).2,
         false⟩ := by
      simp [handle_message, hst, hsel, hp, hnle, hngt, hz]
    refine ⟨by rw [hred], ?_, ?_, ?_⟩
    · rw [hred]
      exact chatState_clear chat _
    · intro heq
      exact absurd (by rw [heq, sub_self]) hz
    · intro _
      rw [hred]
      show get_debt_by_id sel.id (show_debtor_details chat sel.debtor_id _).1.db = _
      rw [sdd_db]
      exact get_debt_by_id_update sel.id (sel.amount - a) s.db

/-- Claim C2 witness: focused debt of amount 100, repaying exactly 100
closes it and returns the chat to Idle. -/
theorem claim2_witness :
    parseFloat "100" = some 100 ∧
    (handle_message 0 "100"
        ⟨⟨[⟨1, "Ivan", 1, none, none⟩], [⟨1, 1, 100, "lunch"⟩], 2, 2⟩,
         [(0, .subtractingFromDebt)], [], [(0, .full ⟨1, 1, 100, "lunch"⟩)]⟩).raised
      = false ∧
    chatState 0 (handle_message 0 "100"
        ⟨⟨[⟨1, "Ivan", 1, none, none⟩], [⟨1, 1, 100, "lunch"⟩], 2, 2⟩,
         [(0, .subtractingFromDebt)], [], [(0, .full ⟨1, 1, 100, "lunch"⟩)]⟩).state
      = .idle ∧
    get_debt_by_id 1 (handle_message 0 "100"
        ⟨⟨[⟨1, "Ivan", 1, none, none⟩], [⟨1, 1, 100, "lunch"⟩], 2, 2⟩,
         [(0, .subtractingFromDebt)], [], [(0, .full ⟨1, 1, 100, "lunch"⟩)]⟩).state.db
      = none := by
  have h := claim2_subtract_repay 0 "100"
    ⟨⟨[⟨1, "Ivan", 1, none, none⟩], [⟨1, 1, 100, "lunch"⟩], 2, 2⟩,
     [(0, .subtractingFromDebt)], [], [(0, .full ⟨1, 1, 100, "lunch"⟩)]⟩
    ⟨1, 1, 100, "lunch"⟩ 100 (by decide) (by decide) (by decide) (by decide)
    (by decide)
  exact ⟨by decide, h.1, h.2.1, h.2.2.1 rfl⟩

/-! Claim C4: does every button event carrying a stored id re-check
existence before acting?  The loading buttons (select-debtor, close-debt,
edit-debt, subtract-from-debt) do; confirm-close and the edit completions do
not: they run the store call on the stale id (a silent no-op) and still
report success. -/

/-- Claim C4 counterexample: with no debt of id 1 in the store, the
confirm-close button for id 1 does not report a missing entity; it performs
the close (a no-op delete) and replies with the success message, so the
claim that every id-carrying button press is re-checked and reported fails
here. -/
theorem claim4_counterexample :
    get_debt_by_id 1 initState.db = none ∧
    handle_callback_query 0 (.confirmClose 1) initState
      = ⟨initState, [.debtClosed], false⟩ ∧
    Msg.debtNotFound ∉ (handle_callback_query 0 (.confirmClose 1) initState).msgs := by
  refine ⟨rfl, rfl, ?_⟩
  decide

/-- Claim C4 as amended: the four entity-loading button events re-check
existence against the store and only report not-found (mutating nothing)
when the entity is gone, while confirm-close acts without re-checking. -/
theorem claim4_loading_buttons_recheck (chat : Int) (i : Nat) (s : GState) :
    (get_debt_by_id i s.db = none →
       handle_callback_query chat (.closeDebt i) s = ⟨s, [.debtNotFound], false⟩ ∧
       handle_callback_query chat (.editDebt i) s = ⟨s, [.debtNotFound], false⟩ ∧
       handle_callback_query chat (.subtractFromDebt i) s
         = ⟨s, [.debtNotFound], false⟩) ∧
    (get_debtor_by_id i s.db = none →
       handle_callback_query chat (.selectDebtor i) s
         = ⟨clear_user_state chat s, [.debtorNotFound], false⟩) := by
  constructor
  · intro h
    refine ⟨?_, ?_, ?_⟩ <;> simp [handle_callback_query, h]
  · intro h
    simp [handle_callback_query, h]

/-- Claim C4 witness: the empty store has no debt id 7; each loading button
answers not-found and leaves the world unchanged. -/
theorem claim4_witness :
    get_debt_by_id 7 initState.db = none ∧
    handle_callback_query 0 (.closeDebt 7) initState
      = ⟨initState, [.debtNotFound], false⟩ ∧
    handle_callback_query 0 (.editDebt 7) initState
      = ⟨initState, [.debtNotFound], false⟩ ∧
    handle_callback_query 0 (.subtractFromDebt 7) initState
      = ⟨initState, [.debtNotFound], false⟩ :=
  ⟨by decide,
   ((claim4_loading_buttons_recheck 0 7 initState).1 (by decide)).1,
   ((claim4_loading_buttons_recheck 0 7 initState).1 (by decide)).2.1,
   ((claim4_loading_buttons_recheck 0 7 initState).1 (by decide)).2.2⟩

/-! Claim C7: shape of the export document. -/

theorem fmt2_zero : fmt2 0 = "0.00" := by decide

theorem debtorRows_length (db : DB) (dr : Debtor) :
    (debtorRows db dr).length = max 1 (list_debts dr.id db).length := by
  unfold debtorRows
  rcases hd : list_debts dr.id db with _ | ⟨d, t⟩
  · simp [hd]
  · simp [hd]

/-- Claim C7: the export is absent exactly when the chat has no debtors;
otherwise the first row is the fixed six-column header, the body holds one
row per (debtor, debt) pair plus exactly one sentinel row per debt-less
debtor (so the body length is the sum over debtors of max 1 (number of
debts)), every debt contributes its row carrying the debtor's freshly summed
total in two-decimal form, and every debt-less debtor contributes the
sentinel row with total 0.00, empty reason and debt amount 0.00. -/
theorem claim7_export_shape (chat : Int) (db : DB) :
    (generate_csv chat db = none ↔ list_debtors chat db = []) ∧
    (∀ rows, generate_csv chat db = some rows →
      rows.head? = some csvHeader ∧
      rows.length = 1 + ((list_debtors chat db).map
          (fun dr => max 1 (list_debts dr.id db).length)).sum ∧
      (∀ dr ∈ list_debtors chat db, ∀ dt ∈ list_debts dr.id db,
         [dr.name, fmt2 (debtorTotal dr.id db), pdateStr dr, pamtStr dr,
          dt.reason, fmt2 dt.amount] ∈ rows) ∧
      (∀ dr ∈ list_debtors chat db, list_debts dr.id db = [] →
         [dr.name, "0.00", pdateStr dr, pamtStr dr, "", "0.00"] ∈ rows)) := by
  constructor
  · unfold generate_csv
    by_cases h : (list_debtors chat db).isEmpty
    · simp [h, List.isEmpty_iff.mp h]
    · simp only [h]
      simp [List.isEmpty_iff] at h
      simp [h]
  · intro rows hr
    unfold generate_csv at hr
    by_cases h : (list_debtors chat db).isEmpty
    · simp [h] at hr
    · simp only [h, Bool.false_eq_true, if_false, Option.some.injEq] at hr
      subst hr
      refine ⟨rfl, ?_, ?_, ?_⟩
      · simp [List.length_flatten, List.map_map, Function.comp_def, debtorRows_length,
              Nat.add_comm]
      · intro dr hdr dt hdt
        refine List.mem_cons_of_mem _ (List.mem_flatten.mpr
          ⟨debtorRows db dr, List.mem_map_of_mem _ hdr, ?_⟩)
        unfold debtorRows
        rcases hd : list_debts dr.id db with _ | ⟨d0, t⟩
        · rw [hd] at hdt
          cases hdt
        · rw [hd] at hdt
          simp only [hd]
          refine List.mem_map.mpr ⟨dt, hdt, ?_⟩
          simp [debtorTotal, hd]
      · intro dr hdr hnil
        refine List.mem_cons_of_mem _ (List.mem_flatten.mpr
          ⟨debtorRows db dr, List.mem_map_of_mem _ hdr, ?_⟩)
        unfold debtorRows
        simp [hnil, fmt2_zero]

/-- Claim C7 witness: a store with one debtor (Ivan, chat 1) holding one
debt and one debtor (Olga, chat 1) holding none: the export is present, and
Olga gets exactly the sentinel row. -/
theorem claim7_witness :
    generate_csv 1 ⟨[⟨1, "Ivan", 1, none, none⟩, ⟨2, "Olga", 1, none, none⟩],
        [⟨1, 1, 100, "lunch"⟩], 3, 2⟩ ≠ none ∧
    ∀ rows, generate_csv 1 ⟨[⟨1, "Ivan", 1, none, none⟩, ⟨2, "Olga", 1, none, none⟩],
        [⟨1, 1, 100, "lunch"⟩], 3, 2⟩ = some rows →
      rows.head? = some csvHeader ∧
      rows.length = 3 ∧
      ["Olga", "0.00", "", "", "", "0.00"] ∈ rows := by
  constructor
  · intro hnone
    have h := (claim7_export_shape 1 ⟨[⟨1, "Ivan", 1, none, none⟩,
        ⟨2, "Olga", 1, none, none⟩], [⟨1, 1, 100, "lunch"⟩], 3, 2⟩).1.mp hnone
    revert h
    decide
  · intro rows hr
    have h := (claim7_export_shape 1 ⟨[⟨1, "Ivan", 1, none, none⟩,
        ⟨2, "Olga", 1, none, none⟩], [⟨1, 1, 100, "lunch"⟩], 3, 2⟩).2 rows hr
    refine ⟨h.1, ?_, ?_⟩
    · rw [h.2.1]
      decide
    · have := h.2.2.2 ⟨2, "Olga", 1, none, none⟩ (by decide) (by decide)
      simpa [pdateStr, pamtStr] using this

/-! Claim C5: focus retention.  The three process-wide dicts only lose a
current-debtor entry in the confirm-delete-debtor branch; every reset to
Idle goes through clear_user_state, which keeps it. -/

theorem handle_command_currentDebtors (chat : Int) (c : Cmd) (s : GState) :
    (handle_command chat c s).state.currentDebtors = s.currentDebtors := by
  cases c <;> simp only [handle_command] <;> repeat' split
  all_goals rfl

theorem hm_cd_none {chat : Int} {text : String} {s : GState} {c : Int}
    (h : alookup c (handle_message chat text s).state.currentDebtors = none) :
    alookup c s.currentDebtors = none := by
  cases hst : chatState chat s <;> simp only [handle_message, hst] at h <;>
    repeat' split at h
  all_goals
    first
    | exact h
    | exact alookup_aset_none h
    | (have h2 := sdd_cd_none h
       exact h2)

theorem hcq_cd_none {chat : Int} {d : CbData} {s : GState} {c : Int}
    (h : alookup c (handle_callback_query chat d s).state.currentDebtors = none) :
    alookup c s.currentDebtors = none ∨ (d = .confirmDeleteDebtor ∧ c = chat) := by
  cases d <;> simp only [handle_callback_query] at h <;> repeat' split at h
  all_goals
    first
    | exact Or.inl h
    | exact Or.inl (alookup_aset_none h)
    | (have h2 := sdd_cd_none h
       exact Or.inl h2)
    | (have h2 := alookup_aset_none (sdd_cd_none h)
       exact Or.inl h2)
    | (have h2 := alookup_aerase_none h
       rcases h2 with hc | hno
       · exact Or.inr ⟨rfl, hc⟩
       · exact Or.inl hno)

/-- Claim C5: (1) the state reset clear_user_state empties the chat's
conversation state (back to Idle) and its debt focus but leaves the debtor
focus untouched; (2) a completed add-debt flow ends in Idle with the debtor
focus still the debtor just used; (3) a chat's debtor-focus entry disappears
only through the confirm-delete-debtor button of that same chat, which also
deletes the focused debtor from the store. -/
theorem claim5_focus_retention :
    (∀ (chat : Int) (s : GState),
       (clear_user_state chat s).currentDebtors = s.currentDebtors ∧
       chatState chat (clear_user_state chat s) = .idle ∧
       alookup chat (clear_user_state chat s).selectedDebts = none) ∧
    (∀ (chat : Int) (text : String) (s : GState) (cd : Debtor) (sel : DebtSel)
       (r0 : String) (a : ℚ),
       chatState chat s = .addingDebtAmount →
       alookup chat s.currentDebtors = some cd →
       alookup chat s.selectedDebts = some sel →
       selReason sel = some r0 →
       parseFloat text = some a → 0 < a →
       (handle_message chat text s).raised = false ∧
       chatState chat (handle_message chat text s).state = .idle ∧
       alookup chat (handle_message chat text s).state.currentDebtors = some cd) ∧
    (∀ (s : GState) (e : Event) (c : Int) (d : Debtor),
       alookup c s.currentDebtors = some d →
       alookup c (step s e).state.currentDebtors = none →
       e = .cb c .confirmDeleteDebtor ∧
       get_debtor_by_id d.id (step s e).state.db = none) := by
  refine ⟨?_, ?_, ?_⟩
  · intro chat s
    exact ⟨rfl, chatState_clear chat s, selected_clear chat s⟩
  · intro chat text s cd sel r0 a hst hcd hsel hr hp ha
    have hred : handle_message chat text s
        = ⟨clear_user_state chat { s with db := add_debt cd.id a r0 s.db },
           [.debtAdded], false⟩ := by
      simp [handle_message, hst, hp, not_le.mpr ha, hcd, hsel, hr]
    rw [hred]
    exact ⟨rfl, chatState_clear chat _, hcd⟩
  · intro s e c d h1 h2
    cases e with
    | cmd chat cm =>
      rw [show (step s (.cmd chat cm)).state.currentDebtors = s.currentDebtors from
        handle_command_currentDebtors chat cm s] at h2
      rw [h1] at h2
      cases h2
    | msg chat t =>
      have h3 := hm_cd_none h2
      rw [h1] at h3
      exact Option.noConfusion h3
    | cb chat dcb =>
      rcases hcq_cd_none h2 with hno | ⟨hdel, hcc⟩
      · rw [h1] at hno
        exact Option.noConfusion hno
      · subst hdel
        subst hcc
        refine ⟨rfl, ?_⟩
        simp only [step, handle_callback_query, h1]
        exact get_debtor_by_id_delete_self d.id s.db

/-- Claim C5 witness: a reset keeps the focus entry; the concrete completed
add-debt flow of the scenario ends Idle with Ivan still in focus; and the
confirm-delete event on a focused chat removes both the entry and the row. -/
theorem claim5_witness :
    (clear_user_state 0 ⟨emptyDB, [(0, .addingDebtAmount)], [(0, ⟨1, "Ivan", 0, none, none⟩)],
        [(0, .pending 1 "lunch")]⟩).currentDebtors = [(0, ⟨1, "Ivan", 0, none, none⟩)] ∧
    (alookup 0 (handle_message 0 "100"
        ⟨⟨[⟨1, "Ivan", 0, none, none⟩], [], 2, 1⟩, [(0, .addingDebtAmount)],
         [(0, ⟨1, "Ivan", 0, none, none⟩)], [(0, .pending 1 "lunch")]⟩).state.currentDebtors
      = some ⟨1, "Ivan", 0, none, none⟩) ∧
    (step ⟨⟨[⟨1, "Ivan", 0, none, none⟩], [], 2, 1⟩, [], [(0, ⟨1, "Ivan", 0, none, none⟩)], []⟩
        (.cb 0 .confirmDeleteDebtor) = step ⟨⟨[⟨1, "Ivan", 0, none, none⟩], [], 2, 1⟩, [],
          [(0, ⟨1, "Ivan", 0, none, none⟩)], []⟩ (.cb 0 .confirmDeleteDebtor) →
       get_debtor_by_id 1 (step ⟨⟨[⟨1, "Ivan", 0, none, none⟩], [], 2, 1⟩, [],
          [(0, ⟨1, "Ivan", 0, none, none⟩)], []⟩ (.cb 0 .confirmDeleteDebtor)).state.db
         = none) := by
  refine ⟨claim5_focus_retention.1 0 _ |>.1 ▸ rfl, ?_, ?_⟩
  · exact (claim5_focus_retention.2.1 0 "100"
      ⟨⟨[⟨1, "Ivan", 0, none, none⟩], [], 2, 1⟩, [(0, .addingDebtAmount)],
       [(0, ⟨1, "Ivan", 0, none, none⟩)], [(0, .pending 1 "lunch")]⟩
      ⟨1, "Ivan", 0, none, none⟩ (.pending 1 "lunch") "lunch" 100
      (by decide) (by decide) (by decide) (by decide) (by decide) (by decide)).2.2
  · intro _
    exact (claim5_focus_retention.2.2
      ⟨⟨[⟨1, "Ivan", 0, none, none⟩], [], 2, 1⟩, [], [(0, ⟨1, "Ivan", 0, none, none⟩)], []⟩
      (.cb 0 .confirmDeleteDebtor) 0 ⟨1, "Ivan", 0, none, none⟩
      (by decide) (by decide)).2

/-! Claim C8: the positive-amount invariant over all reachable states. -/

/-- All stored debt rows carry a strictly positive amount. -/
def DebtsPos (db : DB) : Prop := ∀ d ∈ db.debts, 0 < d.amount

theorem add_debtor_debts (name : String) (chat : Int) (db : DB) :
    (add_debtor name chat db).2.debts = db.debts := by
  unfold add_debtor
  cases get_debtor_by_name name chat db <;> rfl

theorem DebtsPos_add_debtor {name : String} {chat : Int} {db : DB}
    (h : DebtsPos db) : DebtsPos (add_debtor name chat db).2 := by
  intro d hd
  rw [add_debtor_debts] at hd
  exact h d hd

theorem DebtsPos_add_debt {db : DB} {did : Nat} {a : ℚ} {r : String}
    (ha : 0 < a) (h : DebtsPos db) : DebtsPos (add_debt did a r db) := by
  intro d hd
  rcases List.mem_append.mp hd with h1 | h2
  · exact h d h1
  · rw [List.mem_singleton.mp h2]
    exact ha

theorem DebtsPos_close {db : DB} {i : Nat} (h : DebtsPos db) :
    DebtsPos (close_debt i db) := by
  intro d hd
  exact h d (List.mem_of_mem_filter hd)

theorem DebtsPos_update_pos {db : DB} {i : Nat} {v : ℚ}
    (hv : 0 < v) (h : DebtsPos db) : DebtsPos (update_debt_amount i v db) := by
  intro d hd
  rcases List.mem_map.mp hd with ⟨d0, hd0, hmap⟩
  by_cases hid : d0.id = i
  · rw [← hmap]
    simpa [hid] using hv
  · rw [← hmap]
    simpa [hid] using h d0 hd0

theorem DebtsPos_update_close {db : DB} {i : Nat} {v : ℚ} (h : DebtsPos db) :
    DebtsPos (close_debt i (update_debt_amount i v db)) := by
  intro d hd
  have hne : d.id ≠ i := by simpa using List.of_mem_filter hd
  rcases List.mem_map.mp (List.mem_of_mem_filter hd) with ⟨d0, hd0, hmap⟩
  by_cases hid : d0.id = i
  · exact absurd (by rw [← hmap]; simp [hid]) hne
  · rw [← hmap]
    simpa [hid] using h d0 hd0

theorem DebtsPos_update_reason {db : DB} {i : Nat} {r : String}
    (h : DebtsPos db) : DebtsPos (update_debt_reason i r db) := by
  intro d hd
  rcases List.mem_map.mp hd with ⟨d0, hd0, hmap⟩
  by_cases hid : d0.id = i
  · rw [← hmap]
    simpa [hid] using h d0 hd0
  · rw [← hmap]
    simpa [hid] using h d0 hd0

theorem handle_command_db (chat : Int) (c : Cmd) (s : GState) :
    (handle_command chat c s).state.db = s.db := by
  cases c <;> simp only [handle_command] <;> repeat' split
  all_goals rfl

theorem DebtsPos_msg (chat : Int) (text : String) (s : GState)
    (h : DebtsPos s.db) : DebtsPos (handle_message chat text s).state.db := by
  cases hst : chatState chat s <;> simp only [handle_message, hst] <;> repeat' split
  all_goals try simp only [clear_user_state_db, sdd_db]
  all_goals
    first
    | exact h
    | exact DebtsPos_add_debtor h
    | exact DebtsPos_update_reason h
    | exact DebtsPos_update_close h
    | exact DebtsPos_add_debt (not_le.mp (by assumption)) h
    | exact DebtsPos_update_pos (not_le.mp (by assumption)) h
    | exact DebtsPos_update_pos
        (lt_of_le_of_ne (sub_nonneg.mpr (not_lt.mp (by assumption)))
          (Ne.symm (by assumption))) h

theorem DebtsPos_cb (chat : Int) (d : CbData) (s : GState)
    (h : DebtsPos s.db) : DebtsPos (handle_callback_query chat d s).state.db := by
  cases d <;> simp only [handle_callback_query] <;> repeat' split
  all_goals try simp only [clear_user_state_db, sdd_db]
  all_goals
    first
    | exact h
    | exact DebtsPos_close h

/-- Claim C8: in every state reachable from process start through the public
interface, every stored debt row has a strictly positive amount. -/
theorem claim8_positive_amounts (s : GState) (h : Reachable s) : DebtsPos s.db := by
  induction h with
  | init => intro d hd; cases hd
  | next s0 e _ ih =>
    cases e with
    | cmd chat c =>
      intro d hd
      rw [show (step s0 (.cmd chat c)).state.db = s0.db from handle_command_db chat c s0] at hd
      exact ih d hd
    | msg chat t => exact DebtsPos_msg chat t s0 ih
    | cb chat dcb => exact DebtsPos_cb chat dcb s0 ih

/-- Claim C8 witness: the state reached by the add-debtor-and-debt flow
(commands and texts from scratch) holds exactly one debt, of amount 100,
and the invariant instantiates to it. -/
theorem claim8_witness :
    (step (step (step (step initState (.cmd 0 .add)).state (.msg 0 "Ivan")).state
       (.msg 0 "lunch")).state (.msg 0 "100")).state.db.debts = [⟨1, 1, 100, "lunch"⟩] ∧
    DebtsPos (step (step (step (step initState (.cmd 0 .add)).state (.msg 0 "Ivan")).state
       (.msg 0 "lunch")).state (.msg 0 "100")).state.db :=
  ⟨by decide,
   claim8_positive_amounts _ (.next _ _ (.next _ _ (.next _ _ (.next _ _ .init))))⟩

end DebtBot
